import Mathlib

/-!
Verification development for the blood-count extraction / cancer-risk
classification pipeline of the `rizome_biotech_webapp` repository.

The Python sources embedded here (shallowly) are:
- `src/utils/cancer_classifier.py`   (class `CancerClassifier`,
  `get_cancer_risk_interpretation`, `predict_cancer_risk`)
- `src/universal_carnetsante_extractor.py` (class `UniversalCarnetSanteExtractor`)
- `src/utils/pdf_extraction.py`      (classes `CarnetSanteExtractor`,
  `UniversalLabExtractor`)
- `src/quebec_health_booklet_extractor.py` (class `QuebecHealthBookletExtractor`)

Modelling conventions:
- Python floats are embedded as `PyFloat`: an exact rational for every finite
  value, plus `nan`, `pinf` (+inf) and `ninf` (-inf).  Real-valued
  computations of the classifier (sigmoid, clipping, confidence) are embedded
  over `ℝ`, with the Gaussian jitter of `_simulate_prediction` made an
  explicit `noise` parameter.
- Python dict values handed to `extract_features` are embedded as `PyVal`
  (a float, a dict, a Python `None`); dicts are association lists.
- Regular-expression matching used by the traditional-lab line parser is
  embedded by a small greedy backtracking matcher over sequences of
  quantified character classes, which coincides with CPython `re` semantics
  for the alternation-free, nesting-free patterns that occur there.
- Wall-clock metadata (`collection_timestamp`, `extracted_at`) carried by
  some readings is environment input, not data the claims mention; it is
  omitted from the embedded reading records.
-/

namespace Rizome

/-! ## Canonical features (`CancerClassifier.required_features`) -/

/-- The 7 canonical model features, in the fixed order
`['WBC', 'NLR', 'HGB', 'MCV', 'PLT', 'RDW', 'MONO']` used by
`CancerClassifier`. -/
inductive Feature
  | WBC | NLR | HGB | MCV | PLT | RDW | MONO
deriving DecidableEq, Repr

/-- `self.required_features`, in source order (also the insertion order of
`feature_ranges`, `imputation_values` and `feature_mapping`, hence the
iteration order of every loop over those dicts). -/
def canonicalFeatures : List Feature :=
  [.WBC, .NLR, .HGB, .MCV, .PLT, .RDW, .MONO]

/-- `self.feature_ranges`: validation (safety) ranges. -/
def featureRanges : Feature → ℚ × ℚ
  | .WBC  => (1, 50)
  | .NLR  => (1/2, 50)
  | .HGB  => (50, 200)
  | .MCV  => (60, 120)
  | .PLT  => (50, 800)
  | .RDW  => (10, 30)
  | .MONO => (0, 5)

/-- `self.imputation_values`: population-mean imputation constants. -/
def imputationValues : Feature → ℚ
  | .WBC  => 72/10
  | .NLR  => 28/10
  | .HGB  => 1405/10
  | .MCV  => 882/10
  | .PLT  => 285
  | .RDW  => 135/10
  | .MONO => 6/10

/-- `feature_mapping` in `CancerClassifier.extract_features`: the ordered
alias lists tried for each canonical feature. -/
def featureAliases : Feature → List String
  | .WBC  => ["WBC", "GB", "white_blood_cells"]
  | .NLR  => ["NLR", "neutrophil_lymphocyte_ratio"]
  | .HGB  => ["HGB", "Hemoglobin", "HB", "hemoglobin"]
  | .MCV  => ["MCV", "mcv"]
  | .PLT  => ["PLT", "Platelets", "PLAT", "PLAQ", "platelets"]
  | .RDW  => ["RDW", "DVE", "rdw"]
  | .MONO => ["MONO", "Monocytes", "MONO_ABS", "monocytes"]

/-! ## Embedded Python values -/

/-- A Python float: exact finite rational, NaN, or a signed infinity. -/
inductive PyFloat
  | fin (q : ℚ)
  | nan
  | pinf
  | ninf
deriving DecidableEq, Repr

/-- A Python value as supplied in a CBC mapping: a float, a dict
(association list), or `None`.  (Numeric strings behave like their numeric
value under `float(...)` and are subsumed by `fl`; non-numeric strings
behave like `obj` — unconvertible.) -/
inductive PyVal
  | fl (f : PyFloat)
  | obj (fields : List (String × PyVal))
  | pynone
deriving Repr

/-- First binding of `key` in an association list (Python dict lookup for
dicts whose keys are unique). -/
def alistLookup {α : Type} (l : List (String × α)) (key : String) : Option α :=
  match l with
  | [] => none
  | (k, v) :: rest => if k = key then some v else alistLookup rest key

/-- `isinstance(value, float) and math.isnan(value)`. -/
def isNanVal : PyVal → Bool
  | .fl .nan => true
  | _ => false

/-- `float(value)` for an embedded value: succeeds exactly on floats (NaN and
the infinities convert to themselves); dicts and `None` raise
`TypeError`, embedded as `none`. -/
def pyFloatOf : PyVal → Option PyFloat
  | .fl f => some f
  | _ => none

/-! ## `CancerClassifier.extract_features` -/

/-- The inner alias loop: first alias name present in `cbc_data` wins. -/
def findAlias (data : List (String × PyVal)) : List String → Option PyVal
  | [] => none
  | n :: rest =>
    match alistLookup data n with
    | some v => some v
    | none => findAlias data rest

/-- `cbc_data[name].get('value', cbc_data[name])` when the stored value is a
dict, the stored value itself otherwise. -/
def resolveObj : PyVal → PyVal
  | .obj fields => (alistLookup fields "value").getD (.obj fields)
  | v => v

/-- The value found for one canonical feature, after alias resolution and
the dict-unwrapping step (`None` when no alias is present). -/
def resolveFeature (data : List (String × PyVal)) (f : Feature) : Option PyVal :=
  (findAlias data (featureAliases f)).map resolveObj

/-- One iteration of the `extract_features` loop: the harmonized float for
feature `f` together with the flag telling whether the imputation constant
was substituted (mirrors the `value is not None and not isnan` test, the
`float(value)` conversion and its `except` handler). -/
def extractFeature (data : List (String × PyVal)) (f : Feature) : PyFloat × Bool :=
  match resolveFeature data f with
  | none => (.fin (imputationValues f), true)
  | some v =>
    if v matches .pynone then (.fin (imputationValues f), true)
    else if isNanVal v then (.fin (imputationValues f), true)
    else
      match pyFloatOf v with
      | some x => (x, false)
      | none => (.fin (imputationValues f), true)

/-- Result of `extract_features`: the 7 harmonized values together with the
`_missing_features` / `_imputed_count` metadata. -/
structure Extracted where
  values : Feature → PyFloat
  missing : List Feature
  imputedCount : ℕ

/-- `CancerClassifier.extract_features`: loops over the 7 canonical
features in canonical order, substituting `imputation_values` for a feature
that is absent under every alias, `None`, NaN, or unconvertible, and
appending exactly those features to `missing_features`;
`_imputed_count = len(_missing_features)`. -/
def extractFeatures (data : List (String × PyVal)) : Extracted :=
  { values := fun f => (extractFeature data f).1
  , missing := canonicalFeatures.filter (fun f => (extractFeature data f).2)
  , imputedCount :=
      (canonicalFeatures.filter (fun f => (extractFeature data f).2)).length }

/-- The per-feature imputation trigger, read off the source: no alias
present, or the resolved value is `None`, NaN, or fails `float(...)`.
(Note: an *infinite* float converts successfully and is NOT imputed.) -/
def imputes (data : List (String × PyVal)) (f : Feature) : Bool :=
  match resolveFeature data f with
  | none => true
  | some v => (v matches .pynone) || isNanVal v || (pyFloatOf v).isNone

/-! ## `CancerClassifier.validate_input`

Over a complete, finite-valued 7-feature mapping (the shape produced by
`extract_features` on numeric data and assumed by every claim), the
missing-field loop of `validate_input` never fires and `float(data[field])`
never raises, so validation reduces to the range scan over
`feature_ranges`, reported in dict insertion order (= canonical order). -/

/-- A structured validation error: the source reports it as the f-string
`"{field} value {value} outside safe range ({min_val}-{max_val})"`, i.e. it
names the offending feature, its value and the violated bounds. -/
inductive ValErr
  | outOfRange (f : Feature) (value lo hi : ℚ)
deriving DecidableEq, Repr

/-- The range-validation loop of `validate_input`: first feature (in
`feature_ranges` order) whose value is below `min_val` or above `max_val`. -/
def firstOutOfRange (d : Feature → ℚ) : List Feature → Option ValErr
  | [] => none
  | f :: rest =>
    let lo := (featureRanges f).1
    let hi := (featureRanges f).2
    if d f < lo ∨ d f > hi then some (.outOfRange f (d f) lo hi)
    else firstOutOfRange d rest

/-- `CancerClassifier.validate_input` on a complete numeric feature map:
`none` means `(True, "Valid input")`. -/
def validateInput (d : Feature → ℚ) : Option ValErr :=
  firstOutOfRange d canonicalFeatures

/-! ## `CancerClassifier._simulate_prediction` (fallback heuristic) -/

/-- `normal_ranges` (clinical thresholds) of `_simulate_prediction`. -/
def normalRanges : Feature → ℚ × ℚ
  | .HGB  => (120, 170)
  | .MCV  => (80, 100)
  | .MONO => (1/5, 1)
  | .NLR  => (1, 4)
  | .PLT  => (150, 450)
  | .RDW  => (23/2, 29/2)
  | .WBC  => (4, 11)

/-- Normalized deviation beyond a normal range, as accumulated by the
`for feature, value in features.items()` loop. -/
def rangeDeviation (lo hi v : ℚ) : ℚ :=
  if v < lo then (lo - v) / lo
  else if v > hi then (v - hi) / hi
  else 0

/-- The deviation part of `abnormality_score` (every one of the 7 features
has an entry in `normal_ranges`, so the loop visits them all; the sum does
not depend on iteration order). -/
def deviationSum (d : Feature → ℚ) : ℚ :=
  (canonicalFeatures.map fun f =>
    rangeDeviation (normalRanges f).1 (normalRanges f).2 (d f)).sum

/-- `abnormality_score`: range deviations plus the fixed marker bonuses
(NLR, HGB, RDW, MONO special cases). -/
def abnormalityScore (d : Feature → ℚ) : ℚ :=
  deviationSum d
    + (if d .NLR > 5 then 2 else if d .NLR > 7/2 then 1 else 0)
    + (if d .HGB < 100 then 3/2 else if d .HGB < 120 then 1/2 else 0)
    + (if d .RDW > 16 then 1 else if d .RDW > 15 then 1/2 else 0)
    + (if d .MONO > 1 then 4/5 else 0)

/-- `1 / (1 + np.exp(-x))`. -/
noncomputable def sigmoid (x : ℝ) : ℝ := 1 / (1 + Real.exp (-x))

/-- `np.clip(x, lo, hi)`. -/
noncomputable def clip (x lo hi : ℝ) : ℝ := min (max x lo) hi

/-- `_simulate_prediction`: sigmoid of the abnormality score centred at 2
with slope 2, plus the Gaussian jitter (here an explicit `noise` argument),
clipped to `[0.01, 0.99]`. -/
noncomputable def simulatePrediction (d : Feature → ℚ) (noise : ℝ) : ℝ :=
  clip (sigmoid (2 * ((abnormalityScore d : ℝ) - 2)) + noise) (1/100) (99/100)

/-! ## `CancerClassifier.predict` -/

/-- Risk level and colour assigned in `predict` (lower-bound-inclusive
buckets). -/
noncomputable def riskBucket (p : ℝ) : String × String :=
  if p < 1/10 then ("Very Low", "green")
  else if p < 3/10 then ("Low", "lightgreen")
  else if p < 3/5 then ("Moderate", "orange")
  else if p < 4/5 then ("High", "red")
  else ("Very High", "darkred")

/-- The imputation-aware confidence of `predict`:
`max(0.5, max(p, 1-p) - imputed_count * 0.10)`. -/
noncomputable def confidenceOf (p : ℝ) (k : ℕ) : ℝ :=
  max (1/2) (max p (1 - p) - (k : ℝ) * (1/10))

/-- The structured error dict returned by `predict` when validation fails:
zeroed prediction/probability/confidence, no risk level and no
interpretation fields. -/
structure PredErr where
  message : ValErr
  prediction : ℕ
  probability : ℝ
  confidence : ℝ
  missingFeatures : List Feature
  imputedCount : ℕ

/-- The successful result dict of `predict` (fields the claims refer to;
`imputationWarning` records whether the warning string is present). -/
structure PredOk where
  prediction : ℕ
  predictionLabel : String
  probability : ℝ
  confidence : ℝ
  riskLevel : String
  riskColor : String
  missingFeatures : List Feature
  imputedCount : ℕ
  imputationWarning : Bool

/-- A `predict` outcome: either the structured error dict or the full
result dict. -/
inductive PredictResult
  | err (e : PredErr)
  | ok (r : PredOk)

/-- `CancerClassifier.predict` on a complete numeric feature map, in the
fallback-simulation state (`model_loaded == False`; the trained AutoGluon
artifact is not part of the repository).  The confidence, risk-bucket and
output-shape logic after the probability is produced is shared verbatim
with the model-loaded path. -/
noncomputable def predict (d : Feature → ℚ) (missing : List Feature) (k : ℕ)
    (noise : ℝ) : PredictResult :=
  match validateInput d with
  | some e =>
    .err { message := e, prediction := 0, probability := 0, confidence := 0
         , missingFeatures := missing, imputedCount := k }
  | none =>
    let p := simulatePrediction d noise
    .ok { prediction := if p > 1/2 then 1 else 0
        , predictionLabel :=
            if p > 1/2 then "Cancer Risk Detected" else "Low Cancer Risk"
        , probability := p
        , confidence := confidenceOf p k
        , riskLevel := (riskBucket p).1
        , riskColor := (riskBucket p).2
        , missingFeatures := missing
        , imputedCount := k
        , imputationWarning := decide (0 < k) }

/-- `get_cancer_risk_interpretation`: level and colour (the message and
recommendation strings are fixed per bucket and elided). -/
noncomputable def riskInterpretation (p : ℝ) : String × String :=
  if p < 1/10 then ("Very Low Risk", "green")
  else if p < 3/10 then ("Low Risk", "lightgreen")
  else if p < 3/5 then ("Moderate Risk", "orange")
  else if p < 4/5 then ("High Risk", "red")
  else ("Very High Risk", "darkred")

/-- The tail of `predict_cancer_risk`: the clinical interpretation is
attached iff the prediction result carries no `error` key. -/
noncomputable def attachInterpretation : PredictResult → Option (String × String)
  | .err _ => none
  | .ok r => some (riskInterpretation r.probability)

/-! ## A small regular-expression engine

The traditional-lab line patterns of
`UniversalCarnetSanteExtractor._parse_traditional_line` are `^`-anchored
sequences of quantified character classes and literal characters, with no
alternation and no nested groups.  On such patterns CPython `re` performs
greedy matching with backtracking, which the matcher below reproduces
exactly: each atom first consumes as much as its class allows and shorter
consumptions are retried on failure of the remainder. -/

/-- Quantifier of one atom: exactly one, `?`, `*` or `+`. -/
inductive Quant
  | one | opt | star | plus
deriving Repr

/-- One quantified character class; `cap` marks a capturing group. -/
structure RAtom where
  cls : Char → Bool
  q : Quant
  cap : Bool

/-- Candidate (consumed, remainder) splits for one atom, in greedy
(longest-first) order. -/
def greedySplits (p : Char → Bool) (q : Quant) (cs : List Char) :
    List (List Char × List Char) :=
  let n := (cs.takeWhile p).length
  let lens : List ℕ :=
    match q with
    | .one => if 1 ≤ n then [1] else []
    | .opt => if 1 ≤ n then [1, 0] else [0]
    | .star => (List.range (n + 1)).reverse
    | .plus => ((List.range n).map (· + 1)).reverse
  lens.map fun k => (cs.take k, cs.drop k)

/-- Anchored greedy backtracking match of an atom sequence against the
start of the input (the rest of the input is unconstrained, matching
`re.search` with a `^`-anchored, un-`$`-terminated pattern); returns the
captured groups in order on success. -/
def matchAtoms : List RAtom → List Char → Option (List (List Char))
  | [], _ => some []
  | a :: rest, cs =>
    (greedySplits a.cls a.q cs).findSome? fun pr =>
      (matchAtoms rest pr.2).map fun caps =>
        if a.cap then pr.1 :: caps else caps

/-! ### Character classes used by the traditional-lab patterns -/

/-- Whitespace as matched by `\s` and stripped by `str.strip()` for the
ASCII texts at hand. -/
def isPySpace (c : Char) : Bool :=
  c == ' ' || c == '\t' || c == '\n' || c == '\r' || c == '\x0b' || c == '\x0c'

/-- `[A-Z]`. -/
def isUpperAZ (c : Char) : Bool := decide ('A' ≤ c) && decide (c ≤ 'Z')

/-- `[A-Za-z]`. -/
def isAlphaAZ (c : Char) : Bool :=
  isUpperAZ c || (decide ('a' ≤ c) && decide (c ≤ 'z'))

/-- `[0-9\.]`. -/
def isNumDot (c : Char) : Bool := c.isDigit || c == '.'

/-- `[0-9\.\-]`. -/
def isNumDotDash (c : Char) : Bool := isNumDot c || c == '-'

/-- `[LH]`. -/
def isLH (c : Char) : Bool := c == 'L' || c == 'H'

/-- `[a-zA-Z0-9\^\\/]` (letters, digits, caret, backslash, slash). -/
def isUnitChar (c : Char) : Bool :=
  isAlphaAZ c || c.isDigit || c == '^' || c == '\\' || c == '/'

/-- Non-capturing whitespace atom. -/
def wsAtom (q : Quant) : RAtom := ⟨isPySpace, q, false⟩

/-- Capturing class atom. -/
def capAtom (p : Char → Bool) (q : Quant) : RAtom := ⟨p, q, true⟩

/-- One literal character. -/
def litAtom (c : Char) : RAtom := ⟨(· == c), .one, false⟩

/-- A literal string, one atom per character. -/
def litAtoms (s : String) : List RAtom := s.toList.map litAtom

/-- Pattern 1 of `_parse_traditional_line`:
`^([A-Z]+)\s+([A-Z]+)\s+([0-9\.]+)\s*([LH]?)\s*([a-zA-Z0-9\^\\/]*)\s+([0-9\.\-]+)`. -/
def tradPattern1 : List RAtom :=
  [capAtom isUpperAZ .plus, wsAtom .plus, capAtom isUpperAZ .plus, wsAtom .plus,
   capAtom isNumDot .plus, wsAtom .star, capAtom isLH .opt, wsAtom .star,
   capAtom isUnitChar .star, wsAtom .plus, capAtom isNumDotDash .plus]

/-- Pattern 2 of `_parse_traditional_line`:
`^([A-Za-z]+)\s+abs\.\s+Auto\s+([0-9\.]+)\s*([LH]?)\s*([a-zA-Z0-9\^\\/]*)\s+([0-9\.\-]+)`. -/
def tradPattern2 : List RAtom :=
  [capAtom isAlphaAZ .plus, wsAtom .plus] ++ litAtoms "abs." ++ [wsAtom .plus]
    ++ litAtoms "Auto"
    ++ [wsAtom .plus, capAtom isNumDot .plus, wsAtom .star, capAtom isLH .opt,
        wsAtom .star, capAtom isUnitChar .star, wsAtom .plus,
        capAtom isNumDotDash .plus]

/-- Pattern 3 of `_parse_traditional_line`:
`^([A-Za-z]+)\s+Rel\.\s+([0-9\.]+)\s*([LH]?)\s*%\s+([0-9\.\-]+)`. -/
def tradPattern3 : List RAtom :=
  [capAtom isAlphaAZ .plus, wsAtom .plus] ++ litAtoms "Rel."
    ++ [wsAtom .plus, capAtom isNumDot .plus, wsAtom .star, capAtom isLH .opt,
        wsAtom .star, litAtom '%', wsAtom .plus, capAtom isNumDotDash .plus]

/-! ## Value parsing (`float(...)` on matched numeric tokens) -/

/-- Decimal digits to a natural number (`natOfDigits [] = 0`; only called on
all-digit lists). -/
def natOfDigits (cs : List Char) : ℕ :=
  cs.foldl (fun acc c => 10 * acc + (c.toNat - 48)) 0

/-- The rational denoted by `<intPart>.<fracPart>`. -/
def decimalVal (intPart fracPart : List Char) : ℚ :=
  (natOfDigits intPart : ℚ) + (natOfDigits fracPart : ℚ) / 10 ^ fracPart.length

/-- `float(s)` for a token drawn from `[0-9\.]+`: an optional single dot
with digits around it (at least one digit in total); anything else — e.g.
two dots — raises `ValueError`, embedded as `none`. -/
def parsePyFloat? (cs : List Char) : Option ℚ :=
  match cs.splitOn '.' with
  | [intPart] =>
    if intPart ≠ [] ∧ intPart.all (·.isDigit) then
      some (natOfDigits intPart)
    else none
  | [intPart, fracPart] =>
    if (intPart ≠ [] ∨ fracPart ≠ []) ∧ intPart.all (·.isDigit)
        ∧ fracPart.all (·.isDigit) then
      some (decimalVal intPart fracPart)
    else none
  | _ => none

/-! ## String helpers (`in`, `str.strip()`, `str.split`) -/

/-- `sub` is a prefix of `l`. -/
def listIsPre : List Char → List Char → Bool
  | [], _ => true
  | _ :: _, [] => false
  | a :: as, b :: bs => a == b && listIsPre as bs

/-- Python `sub in l` (substring containment; the empty string is contained
in everything). -/
def listContainsSub : List Char → List Char → Bool
  | [], sub => sub.isEmpty
  | c :: t, sub => listIsPre sub (c :: t) || listContainsSub t sub

/-- Python `sub in s` on strings. -/
def strContains (s sub : String) : Bool := listContainsSub s.toList sub.toList

/-- Python `str.strip()`. -/
def pyStrip (s : String) : String :=
  String.mk (((s.toList.dropWhile isPySpace).reverse.dropWhile isPySpace).reverse)

/-- Newline splitting on the character list (structural recursion). -/
def splitLinesList : List Char → List (List Char)
  | [] => [[]]
  | c :: rest =>
    if c = '\n' then [] :: splitLinesList rest
    else
      match splitLinesList rest with
      | [] => [[c]]
      | l :: ls => (c :: l) :: ls

/-- Python `text.split('\n')`. -/
def splitLines (t : String) : List String :=
  (splitLinesList t.toList).map String.mk

/-! ## `UniversalCarnetSanteExtractor.detect_format` -/

/-- The closed format-tag set (the source uses the strings
`'quebec_health_booklet'`, `'traditional_lab'`, `'unknown'`). -/
inductive DocFormat
  | quebecHealthBooklet
  | traditionalLab
  | unknown
deriving DecidableEq, Repr

/-- `UniversalCarnetSanteExtractor.detect_format`, applied to the already
normalized (NFKD diacritic-stripped, ASCII-encoded, lower-cased) document
text produced by `_normalize_text`. -/
def detectFormat (t : String) : DocFormat :=
  if strContains t "carnet sante"
      && (strContains t "hemogramme" || strContains t "hematology") then
    .quebecHealthBooklet
  else if strContains t "patient externe"
      && (strContains t "hematologie" || strContains t "hematology") then
    .traditionalLab
  else if strContains t "carnet sante" then
    .quebecHealthBooklet
  else
    .unknown

/-! ## Biomarker readings and extraction maps -/

/-- One extracted biomarker reading (the wall-clock `collection_timestamp`
field some extractors add is environment metadata and is omitted). -/
structure Reading where
  value : ℚ
  unit : String
  flag : String
  referenceRange : String
  originalName : String
deriving DecidableEq, Repr

/-- A `cbc_data` dict: insertion-ordered association list with unique keys. -/
abbrev CbcMap := List (String × Reading)

/-- Python dict assignment `m[k] = r`: replace in place if the key exists,
append otherwise. -/
def mapInsert (m : CbcMap) (k : String) (r : Reading) : CbcMap :=
  match m with
  | [] => [(k, r)]
  | (k', r') :: rest =>
    if k' = k then (k, r) :: rest else (k', r') :: mapInsert rest k r

/-! ## `UniversalCarnetSanteExtractor.extract_cbc_traditional` -/

/-- `self.test_mappings`, in dict insertion order. -/
def testMappings : List (String × String) :=
  [("GB", "WBC"), ("WBC", "WBC"),
   ("HB", "HGB"), ("HGB", "HGB"),
   ("HT", "HCT"), ("HCT", "HCT"),
   ("GR", "RBC"), ("RBC", "RBC"),
   ("VGM", "MCV"), ("MCV", "MCV"),
   ("TGMH", "MCH"), ("MCH", "MCH"),
   ("CCMH", "MCHC"), ("MCHC", "MCHC"),
   ("DVE", "RDW"), ("RDW", "RDW"),
   ("PLAQ", "PLT"), ("PLAT", "PLT"), ("PLT", "PLT"),
   ("VPM", "MPV"), ("MPV", "MPV"),
   ("Leucocytes", "WBC"),
   ("Hémoglobine", "HGB"),
   ("Hématocrite", "HCT"),
   ("Érythrocytes", "RBC"),
   ("Plaquettes", "PLT"),
   ("Plaquette", "MPV"),
   ("Neutrophiles", "NEUT_ABS"),
   ("NEUTROPHILES %", "NEUT_PCT"),
   ("Lymphocytes", "LYMPH_ABS"),
   ("LYMPHOCYTES %", "LYMPH_PCT"),
   ("Monocytes", "MONO_ABS"),
   ("MONOCYTES %", "MONO_PCT"),
   ("Éosinophiles", "EOS_ABS"),
   ("EOSINPHILE %", "EOS_PCT"),
   ("Basophiles", "BASO_ABS"),
   ("BASOPHILES %", "BASO_PCT"),
   ("Neutrophiles abs.", "NEUT_ABS"),
   ("Neutrophiles Rel.", "NEUT_PCT"),
   ("Lymphocytes abs.", "LYMPH_ABS"),
   ("Lymphocytes Rel.", "LYMPH_PCT"),
   ("Monocytes abs.", "MONO_ABS"),
   ("Monocytes Rel.", "MONO_PCT"),
   ("Eosinophiles abs.", "EOS_ABS"),
   ("Eosinophiles Rel.", "EOS_PCT"),
   ("Basophiles abs.", "BASO_ABS"),
   ("Basophiles Rel.", "BASO_PCT"),
   ("NRBC abs.", "NRBC_ABS"),
   ("NRBC Rel.", "NRBC_PCT"),
   ("NRBC Abs", "NRBC_ABS"),
   ("NRBC REL.", "NRBC_PCT")]

/-- The tuple produced by `_parse_traditional_line` on a match. -/
structure ParsedLine where
  testName : String
  value : ℚ
  unit : String
  flag : String
  refRange : String
deriving DecidableEq, Repr

/-- Outcome of `_parse_traditional_line` on one line.  `crash` embeds an
uncaught `ValueError` from `float(...)` (the universal extractor has no
per-line `try`, so such an error propagates out of the whole extraction). -/
inductive LineParse
  | crash
  | nomatch
  | parsed (p : ParsedLine)
deriving DecidableEq, Repr

/-- Group `i` of a capture list, as a string. -/
def group (caps : List (List Char)) (i : ℕ) : String :=
  String.mk (caps.getD i [])

/-- `UniversalCarnetSanteExtractor._parse_traditional_line`: the three
patterns tried in order, first match wins. -/
def parseTraditionalLine (line : String) : LineParse :=
  match matchAtoms tradPattern1 line.toList with
  | some caps =>
    match parsePyFloat? (caps.getD 2 []) with
    | some v => .parsed ⟨group caps 1, v, group caps 4, group caps 3, group caps 5⟩
    | none => .crash
  | none =>
  match matchAtoms tradPattern2 line.toList with
  | some caps =>
    match parsePyFloat? (caps.getD 1 []) with
    | some v =>
      .parsed ⟨group caps 0 ++ " abs.", v, group caps 3, group caps 2, group caps 4⟩
    | none => .crash
  | none =>
  match matchAtoms tradPattern3 line.toList with
  | some caps =>
    match parsePyFloat? (caps.getD 1 []) with
    | some v => .parsed ⟨group caps 0 ++ " Rel.", v, "%", group caps 2, group caps 3⟩
    | none => .crash
  | none => .nomatch

/-- Header lines skipped inside the FSC/CBC window. -/
def tradHeaderSkips : List String :=
  ["ANALYSE(S)", "TEST(S)", "RÉSULTAT", "RESULT"]

/-- The line loop of `extract_cbc_traditional`: section windowing
(hematology marker opens, `B I O C H I M I E` or the page-continuation
marker closes), FSC/CBC subsection gate, header skipping, then per-line
parsing and standard-name mapping.  `none` embeds an uncaught exception. -/
def extractTradLoop : List String → Bool → Bool → CbcMap → Option CbcMap
  | [], _, _, acc => some acc
  | l :: rest, inHema, fsc, acc =>
    let line := pyStrip l
    if strContains line "H E M A T O L O G I E"
        || strContains line "H E M A T O L O G Y" then
      extractTradLoop rest true fsc acc
    else if inHema
        && (strContains line "FSC / CBC" || strContains line "FSC/CBC") then
      extractTradLoop rest inHema true acc
    else if inHema
        && (strContains line "B I O C H I M I E"
            || strContains line "suite à la page suivante") then
      some acc
    else if !inHema || !fsc then
      extractTradLoop rest inHema fsc acc
    else if tradHeaderSkips.any (fun h => strContains line h) then
      extractTradLoop rest inHema fsc acc
    else
      match parseTraditionalLine line with
      | .crash => none
      | .nomatch => extractTradLoop rest inHema fsc acc
      | .parsed p =>
        match alistLookup testMappings p.testName with
        | some std =>
          extractTradLoop rest inHema fsc
            (mapInsert acc std ⟨p.value, p.unit, p.flag, p.refRange, p.testName⟩)
        | none => extractTradLoop rest inHema fsc acc

/-- `UniversalCarnetSanteExtractor.extract_cbc_traditional`. -/
def extractCbcTraditional (text : String) : Option CbcMap :=
  extractTradLoop (splitLines text) false false []

/-! ## Derived NLR and result assembly -/

/-- `round(x, 2)` — round-half-up at two decimals over exact rationals
(CPython rounds the nearest binary double with ties-to-even; no value in
this development sits on a tie or near a double-rounding boundary). -/
def round2 (q : ℚ) : ℚ := (⌊q * 100 + 1/2⌋ : ℚ) / 100

/-- The synthetic reading registered for a calculated NLR (identical
literal fields in all three extractors). -/
def nlrReading (v : ℚ) : Reading :=
  ⟨v, "ratio", "", "1.0-3.0", "Calculated NLR"⟩

/-- `UniversalCarnetSanteExtractor.calculate_nlr`. -/
def calculateNLR (cbc : CbcMap) : Option ℚ :=
  match alistLookup cbc "NEUT_PCT", alistLookup cbc "LYMPH_PCT" with
  | some rn, some rl =>
    if rl.value > 0 then some (round2 (rn.value / rl.value)) else none
  | _, _ => none

/-- The NLR step of `UniversalCarnetSanteExtractor.extract_from_pdf`:
`nlr = self.calculate_nlr(...)` followed by the truthiness test `if nlr:`
(so `None` and a rounded ratio of `0.0` both leave the map unchanged). -/
def universalAddNLR (cbc : CbcMap) : CbcMap :=
  match calculateNLR cbc with
  | some v => if v ≠ 0 then mapInsert cbc "NLR" (nlrReading v) else cbc
  | none => cbc

/-- The NLR step of `CarnetSanteExtractor.extract_cbc_values`
(pdf_extraction.py) and of `QuebecHealthBookletExtractor.extract_from_pdf`
(identical logic in both): if both percentages are present and the
lymphocyte percentage is positive, the reading is registered
unconditionally. -/
def directAddNLR (cbc : CbcMap) : CbcMap :=
  match alistLookup cbc "NEUT_PCT", alistLookup cbc "LYMPH_PCT" with
  | some rn, some rl =>
    if rl.value > 0 then
      mapInsert cbc "NLR" (nlrReading (round2 (rn.value / rl.value)))
    else cbc
  | _, _ => cbc

/-- The result shape assembled by
`UniversalCarnetSanteExtractor.extract_from_pdf` (patient info and
timestamps elided). -/
structure UnivResult where
  cbcData : CbcMap
  format : DocFormat
  success : Bool
  cbcTestsFound : ℕ

/-- Result assembly of `UniversalCarnetSanteExtractor.extract_from_pdf`
over already-extracted traditional and booklet maps: plausibility choice by
captured-biomarker count, NLR step, then
`success = len(cbc_data) > 0` and `cbc_tests_found = len(cbc_data)`. -/
def universalAssemble (traditionalCbc bookletCbc : CbcMap)
    (formatType : DocFormat) : UnivResult :=
  let chosen :=
    if bookletCbc.length ≥ traditionalCbc.length && bookletCbc.length > 0 then
      (DocFormat.quebecHealthBooklet, bookletCbc)
    else if traditionalCbc.length > 0 then
      (DocFormat.traditionalLab, traditionalCbc)
    else
      (formatType, ([] : CbcMap))
  let cbc := universalAddNLR chosen.2
  { cbcData := cbc, format := chosen.1
  , success := cbc.length > 0, cbcTestsFound := cbc.length }

/-! ## `QuebecHealthBookletExtractor.extract_from_pdf` assembly -/

/-- `self.required_biomarkers` keys, in dict insertion order. -/
def bookletSevenKeys : List String :=
  ["HGB", "MCV", "MONO", "NLR", "PLT", "RDW", "WBC"]

/-- `QuebecHealthBookletExtractor._create_ml_features`: always exactly 7
entries, `np.nan` for each missing biomarker. -/
def createMlFeatures (cbc : CbcMap) : List (String × PyFloat) :=
  bookletSevenKeys.map fun b =>
    (b, match alistLookup cbc b with
        | some r => PyFloat.fin r.value
        | none => PyFloat.nan)

/-- The result shape of `QuebecHealthBookletExtractor.extract_from_pdf`. -/
structure BookletResult where
  cbcData : CbcMap
  mlFeatures : List (String × PyFloat)
  success : Bool
  cbcTestsFound : ℕ
  mlReadyFeatures : ℕ

/-- Result assembly of `QuebecHealthBookletExtractor.extract_from_pdf` over
an already-extracted map: NLR step, ML feature vector, then
`success = len(ml_features) > 0` and `cbc_tests_found = len(cbc_data)`. -/
def bookletAssemble (cbc0 : CbcMap) : BookletResult :=
  let cbc := directAddNLR cbc0
  let ml := createMlFeatures cbc
  { cbcData := cbc, mlFeatures := ml, success := ml.length > 0
  , cbcTestsFound := cbc.length, mlReadyFeatures := ml.length }

/-! ## `UniversalLabExtractor` (pdf_extraction.py) -/

/-- `UniversalLabExtractor.detect_format` (note: a different detector from
`UniversalCarnetSanteExtractor.detect_format` — raw un-normalized text, and
only the tags `'carnetsante'` / `'unknown'`). -/
def detectFormatLab (text : String) : String :=
  if strContains text "CarnetSante" || strContains text "Centre de santé" then
    "carnetsante"
  else if strContains text "PATIENT EXTERNE" && strContains text "HEMATOLOGIE" then
    "carnetsante"
  else
    "unknown"

/-- The result shape of `UniversalLabExtractor.extract_from_text`. -/
structure LabTextResult where
  cbcData : CbcMap
  format : String
  success : Bool
  cbcTestsFound : ℕ

/-- `UniversalLabExtractor.extract_from_text`.  The CarnetSante CBC
extraction (`CarnetSanteExtractor.extract_cbc_values`) is abstracted as the
parameter `extractCbc`: the success flag does not consult it — the source
sets `success = True` on every run that raises no exception (even with an
unknown format and zero readings) and `False` only in the `except`
handler. -/
def labExtractFromText (extractCbc : String → CbcMap) (text : String) :
    LabTextResult :=
  let fmt := detectFormatLab text
  let cbc := if fmt = "carnetsante" then extractCbc text else []
  { cbcData := cbc, format := fmt, success := true, cbcTestsFound := cbc.length }

/-! ## Concrete inputs used by witnesses and counterexamples -/

/-- Replace the NLR coordinate of a feature vector, all else fixed. -/
def setNLR (d : Feature → ℚ) (v : ℚ) : Feature → ℚ :=
  fun f =>
    match f with
    | .NLR => v
    | f => d f

/-- A feature vector inside every validation range whose HGB, RDW and MONO
deviations already saturate the fallback sigmoid (abnormality score ≥ 5
whatever NLR in `[0.5, 50]` is substituted). -/
def c7Base : Feature → ℚ
  | .WBC  => 7
  | .NLR  => 0
  | .HGB  => 50
  | .MCV  => 88
  | .PLT  => 250
  | .RDW  => 30
  | .MONO => 5

/-- The out-of-range rejection scenario of the spec: HGB = 500, every other
feature normal. -/
def hgb500Input : Feature → ℚ
  | .WBC  => 7
  | .NLR  => 28/10
  | .HGB  => 500
  | .MCV  => 88
  | .PLT  => 250
  | .RDW  => 135/10
  | .MONO => 6/10

/-- A traditional-lab document whose hematology / FSC-CBC window contains
the scenario-D line. -/
def docC9 : String :=
  "PATIENT EXTERNE DOE, JOHN\nHEMATOLOGIE\nH E M A T O L O G I E\nFSC / CBC\nGB WBC 5.87 10^9/L 4.50-11.00 RADVS\nB I O C H I M I E"

/-- The diacritic-stripped, lower-cased normalization of `docC9` (what
`_normalize_text` produces on it). -/
def docC9Normalized : String :=
  "patient externe doe, john\nhematologie\nh e m a t o l o g i e\nfsc / cbc\ngb wbc 5.87 10^9/l 4.50-11.00 radvs\nb i o c h i m i e"

/-- A biomarker map whose neutrophil/lymphocyte percentages give a ratio
that rounds to 0.00 (0.1 / 50 = 0.002). -/
def c6Map : CbcMap :=
  [("NEUT_PCT", ⟨1/10, "%", "", "40-70", "NEUTROPHILES %"⟩),
   ("LYMPH_PCT", ⟨30, "%", "", "22-44", "LYMPHOCYTES %"⟩)]

/-- A typical differential: 63.31 % neutrophils, 30 % lymphocytes. -/
def c6WitnessMap : CbcMap :=
  [("NEUT_PCT", ⟨6331/100, "%", "", "40-70", "NEUTROPHILES %"⟩),
   ("LYMPH_PCT", ⟨30, "%", "", "22-44", "LYMPHOCYTES %"⟩)]

/-! # Theorems

General helper lemmas first, then one main theorem per claim (with its
witness or counterexample where required). -/

/-- The imputation flag computed by `extract_features` coincides with the
read-off trigger predicate `imputes`. -/
theorem extractFeature_snd_eq_imputes (data : List (String × PyVal)) (f : Feature) :
    (extractFeature data f).2 = imputes data f := by
  unfold extractFeature imputes
  match h : resolveFeature data f with
  | none => rfl
  | some v =>
    rcases v with f' | fields | _
    · rcases f' with q | _ | _ | _ <;> simp [isNanVal, pyFloatOf]
    · simp [isNanVal, pyFloatOf]
    · simp

/-- When the imputation trigger fires, the harmonized value is the
population-mean constant. -/
theorem extractFeature_fst_of_imputes (data : List (String × PyVal)) (f : Feature)
    (h : imputes data f = true) :
    (extractFeature data f).1 = .fin (imputationValues f) := by
  unfold extractFeature
  unfold imputes at h
  match hr : resolveFeature data f with
  | none => rfl
  | some v =>
    rw [hr] at h
    rcases v with f' | fields | _
    · rcases f' with q | _ | _ | _ <;> simp_all [isNanVal, pyFloatOf]
    · simp [isNanVal, pyFloatOf]
    · simp

/-- Every feature occurs in the canonical list. -/
theorem mem_canonicalFeatures (f : Feature) : f ∈ canonicalFeatures := by
  cases f <;> simp [canonicalFeatures]

/-- Looking up the just-assigned key of a dict returns the new reading. -/
theorem alistLookup_mapInsert_self (m : CbcMap) (k : String) (r : Reading) :
    alistLookup (mapInsert m k r) k = some r := by
  induction m with
  | nil => simp [mapInsert, alistLookup]
  | cons hd tl ih =>
    obtain ⟨k', r'⟩ := hd
    by_cases h : k' = k
    · simp [mapInsert, h, alistLookup]
    · simp [mapInsert, h, alistLookup, ih]

/-- If some listed feature is out of its safety range, the validation loop
reports a genuinely out-of-range feature (the first such), with its value
and bounds. -/
theorem firstOutOfRange_exists (d : Feature → ℚ) (l : List Feature)
    (h : ∃ g ∈ l, d g < (featureRanges g).1 ∨ d g > (featureRanges g).2) :
    ∃ f, (d f < (featureRanges f).1 ∨ d f > (featureRanges f).2) ∧
      firstOutOfRange d l
        = some (.outOfRange f (d f) (featureRanges f).1 (featureRanges f).2) := by
  induction l with
  | nil => simp at h
  | cons f rest ih =>
    by_cases hf : d f < (featureRanges f).1 ∨ d f > (featureRanges f).2
    · exact ⟨f, hf, by simp [firstOutOfRange, hf]⟩
    · obtain ⟨g, hg, hout⟩ := h
      rcases List.mem_cons.1 hg with rfl | hg'
      · exact absurd hout hf
      · obtain ⟨f', hf', heq⟩ := ih ⟨g, hg', hout⟩
        exact ⟨f', hf', by simp [firstOutOfRange, hf, heq]⟩

/-- `missing_features` is exactly the canonical list filtered by the
imputation trigger. -/
theorem extractFeatures_missing_eq_filter (data : List (String × PyVal)) :
    (extractFeatures data).missing = canonicalFeatures.filter (imputes data) := by
  unfold extractFeatures
  simp only
  congr 1
  funext f
  exact extractFeature_snd_eq_imputes data f

/-- A feature whose imputation trigger fires is recorded in
`missing_features`. -/
theorem mem_missing_of_imputes (data : List (String × PyVal)) (f : Feature)
    (h : imputes data f = true) : f ∈ (extractFeatures data).missing := by
  rw [extractFeatures_missing_eq_filter, List.mem_filter]
  exact ⟨mem_canonicalFeatures f, h⟩

/-- **C1** (amended).  Harmonization substitutes the fixed population-mean
constant (WBC 7.2, NLR 2.8, HGB 140.5, MCV 88.2, PLT 285.0, RDW 13.5,
MONO 0.6) for every canonical feature that is absent under all accepted
aliases, is `None`, is **NaN**, or fails float conversion; it records
exactly those keys in `missing_features` and sets
`imputed_count = len(missing_features)`; a fully-specified input gives
`imputed_count = 0` and empty `missing_features`.  (Amendment forced by
`C1_counterexample`: of the non-finite floats only NaN is imputed — an
infinite value passes the `isnan` test and converts, so it is kept.) -/
theorem C1_harmonization_imputation (data : List (String × PyVal)) :
    (imputationValues .WBC = 72/10 ∧ imputationValues .NLR = 28/10 ∧
     imputationValues .HGB = 1405/10 ∧ imputationValues .MCV = 882/10 ∧
     imputationValues .PLT = 285 ∧ imputationValues .RDW = 135/10 ∧
     imputationValues .MONO = 6/10) ∧
    (∀ f, imputes data f = true →
      (extractFeatures data).values f = .fin (imputationValues f) ∧
      f ∈ (extractFeatures data).missing) ∧
    (extractFeatures data).missing = canonicalFeatures.filter (imputes data) ∧
    (extractFeatures data).imputedCount = (extractFeatures data).missing.length ∧
    ((∀ f, imputes data f = false) →
      (extractFeatures data).imputedCount = 0 ∧
      (extractFeatures data).missing = []) := by
  refine ⟨by norm_num [imputationValues], ?_, extractFeatures_missing_eq_filter data,
    rfl, ?_⟩
  · intro f hf
    exact ⟨extractFeature_fst_of_imputes data f hf, mem_missing_of_imputes data f hf⟩
  · intro hall
    have hnil : (extractFeatures data).missing = [] := by
      rw [extractFeatures_missing_eq_filter]
      simp only [List.filter_eq_nil_iff]
      intro f _
      simp [hall f]
    have hcount : (extractFeatures data).imputedCount
        = (extractFeatures data).missing.length := rfl
    rw [hcount, hnil]
    exact ⟨rfl, rfl⟩

/-- Witness for C1: a NaN-valued HGB is imputed with 140.5 and recorded. -/
theorem C1_witness :
    (extractFeatures [("HGB", PyVal.fl .nan)]).values .HGB = .fin (1405/10) ∧
    Feature.HGB ∈ (extractFeatures [("HGB", PyVal.fl .nan)]).missing :=
  (C1_harmonization_imputation [("HGB", PyVal.fl .nan)]).2.1 .HGB (by decide)

/-- Counterexample to C1 as stated: a WBC value of `float('inf')` is
non-finite, yet harmonization keeps it — it is neither replaced by the
imputation constant 7.2 nor recorded in `missing_features`. -/
theorem C1_counterexample :
    (extractFeatures [("WBC", PyVal.fl .pinf)]).values .WBC = .pinf ∧
    (extractFeatures [("WBC", PyVal.fl .pinf)]).values .WBC
      ≠ .fin (imputationValues .WBC) ∧
    Feature.WBC ∉ (extractFeatures [("WBC", PyVal.fl .pinf)]).missing :=
  ⟨rfl, by decide, by decide⟩

/-- **C10**.  A structured reading object with no `value` field fails
`float(...)` (the `.get('value', obj)` default hands the dict itself to
the conversion), so harmonization does not raise: the feature is silently
replaced by its imputation constant and appended to `missing_features`,
exactly like an absent feature. -/
theorem C10_structured_object_without_value (data : List (String × PyVal))
    (f : Feature) (fields : List (String × PyVal))
    (hfind : findAlias data (featureAliases f) = some (.obj fields))
    (hval : alistLookup fields "value" = none) :
    (extractFeatures data).values f = .fin (imputationValues f) ∧
    f ∈ (extractFeatures data).missing := by
  have hres : resolveFeature data f = some (.obj fields) := by
    unfold resolveFeature
    rw [hfind]
    simp [resolveObj, hval]
  have himp : imputes data f = true := by
    unfold imputes
    rw [hres]
    simp [isNanVal, pyFloatOf]
  exact ⟨extractFeature_fst_of_imputes data f himp, mem_missing_of_imputes data f himp⟩

/-- Witness for C10: a WBC reading object carrying only a unit. -/
theorem C10_witness :
    (extractFeatures [("WBC", PyVal.obj [("unit", PyVal.fl (.fin 1))])]).values .WBC
      = .fin (imputationValues .WBC) ∧
    Feature.WBC
      ∈ (extractFeatures [("WBC", PyVal.obj [("unit", PyVal.fl (.fin 1))])]).missing :=
  C10_structured_object_without_value [("WBC", PyVal.obj [("unit", PyVal.fl (.fin 1))])]
    .WBC [("unit", PyVal.fl (.fin 1))] rfl rfl

/-- **C2**.  On a 7-feature input with some feature outside its fixed
physiological safety range, `predict` returns the structured error result:
the message names an offending feature with its value and bounds,
prediction / probability / confidence are zeroed, there is no risk-level
field (the error constructor carries none) and no interpretation is
attached; the out-of-range value is never silently imputed. -/
theorem C2_out_of_range_rejection :
    (featureRanges .WBC = (1, 50) ∧ featureRanges .NLR = (1/2, 50) ∧
     featureRanges .HGB = (50, 200) ∧ featureRanges .MCV = (60, 120) ∧
     featureRanges .PLT = (50, 800) ∧ featureRanges .RDW = (10, 30) ∧
     featureRanges .MONO = (0, 5)) ∧
    ∀ (d : Feature → ℚ) (missing : List Feature) (k : ℕ) (noise : ℝ),
      (∃ g, d g < (featureRanges g).1 ∨ d g > (featureRanges g).2) →
      ∃ f, (d f < (featureRanges f).1 ∨ d f > (featureRanges f).2) ∧
        predict d missing k noise
          = .err ⟨.outOfRange f (d f) (featureRanges f).1 (featureRanges f).2,
                  0, 0, 0, missing, k⟩ ∧
        attachInterpretation (predict d missing k noise) = none := by
  refine ⟨by norm_num [featureRanges], ?_⟩
  rintro d missing k noise ⟨g, hg⟩
  obtain ⟨f, hf, heq⟩ :=
    firstOutOfRange_exists d canonicalFeatures ⟨g, mem_canonicalFeatures g, hg⟩
  have hv : validateInput d
      = some (.outOfRange f (d f) (featureRanges f).1 (featureRanges f).2) := heq
  have hpred : predict d missing k noise
      = .err ⟨.outOfRange f (d f) (featureRanges f).1 (featureRanges f).2,
              0, 0, 0, missing, k⟩ := by
    unfold predict
    rw [hv]
  exact ⟨f, hf, hpred, by rw [hpred]; rfl⟩

/-- Witness for C2: HGB = 500 (outside [50, 200]) is rejected. -/
theorem C2_witness :
    ∃ f, (hgb500Input f < (featureRanges f).1 ∨ hgb500Input f > (featureRanges f).2) ∧
      predict hgb500Input [] 0 0
        = .err ⟨.outOfRange f (hgb500Input f) (featureRanges f).1 (featureRanges f).2,
                0, 0, 0, [], 0⟩ ∧
      attachInterpretation (predict hgb500Input [] 0 0) = none :=
  C2_out_of_range_rejection.2 hgb500Input [] 0 0
    ⟨.HGB, by norm_num [hgb500Input, featureRanges]⟩

/-- **C3**.  The risk-bucket mapping is lower-bound-inclusive, ordered,
non-overlapping and covers [0,1]: the five disjoint intervals exhaust
[0,1] and on each of them `predict`'s bucket and
`get_cancer_risk_interpretation` return the fixed level and colour; the
risk level reported by a successful `predict` is exactly the bucket of its
probability. -/
theorem C3_risk_buckets :
    (∀ p : ℝ,
      (0 ≤ p → p < 1/10 → riskBucket p = ("Very Low", "green") ∧
        riskInterpretation p = ("Very Low Risk", "green")) ∧
      (1/10 ≤ p → p < 3/10 → riskBucket p = ("Low", "lightgreen") ∧
        riskInterpretation p = ("Low Risk", "lightgreen")) ∧
      (3/10 ≤ p → p < 3/5 → riskBucket p = ("Moderate", "orange") ∧
        riskInterpretation p = ("Moderate Risk", "orange")) ∧
      (3/5 ≤ p → p < 4/5 → riskBucket p = ("High", "red") ∧
        riskInterpretation p = ("High Risk", "red")) ∧
      (4/5 ≤ p → p ≤ 1 → riskBucket p = ("Very High", "darkred") ∧
        riskInterpretation p = ("Very High Risk", "darkred")) ∧
      (0 ≤ p → p ≤ 1 →
        (0 ≤ p ∧ p < 1/10) ∨ (1/10 ≤ p ∧ p < 3/10) ∨ (3/10 ≤ p ∧ p < 3/5) ∨
        (3/5 ≤ p ∧ p < 4/5) ∨ (4/5 ≤ p ∧ p ≤ 1))) ∧
    ∀ (d : Feature → ℚ) (missing : List Feature) (k : ℕ) (noise : ℝ) (r : PredOk),
      predict d missing k noise = .ok r →
      r.riskLevel = (riskBucket r.probability).1 ∧
      r.riskColor = (riskBucket r.probability).2 := by
  constructor
  · intro p
    refine ⟨?_, ?_, ?_, ?_, ?_, ?_⟩
    · intro _ h2
      constructor
      · unfold riskBucket
        rw [if_pos h2]
      · unfold riskInterpretation
        rw [if_pos h2]
    · intro h1 h2
      constructor
      · unfold riskBucket
        rw [if_neg (not_lt.2 h1), if_pos h2]
      · unfold riskInterpretation
        rw [if_neg (not_lt.2 h1), if_pos h2]
    · intro h1 h2
      have n1 : ¬ p < 1/10 := not_lt.2 (by linarith)
      have n2 : ¬ p < 3/10 := not_lt.2 h1
      constructor
      · unfold riskBucket
        rw [if_neg n1, if_neg n2, if_pos h2]
      · unfold riskInterpretation
        rw [if_neg n1, if_neg n2, if_pos h2]
    · intro h1 h2
      have n1 : ¬ p < 1/10 := not_lt.2 (by linarith)
      have n2 : ¬ p < 3/10 := not_lt.2 (by linarith)
      have n3 : ¬ p < 3/5 := not_lt.2 h1
      constructor
      · unfold riskBucket
        rw [if_neg n1, if_neg n2, if_neg n3, if_pos h2]
      · unfold riskInterpretation
        rw [if_neg n1, if_neg n2, if_neg n3, if_pos h2]
    · intro h1 _
      have n1 : ¬ p < 1/10 := not_lt.2 (by linarith)
      have n2 : ¬ p < 3/10 := not_lt.2 (by linarith)
      have n3 : ¬ p < 3/5 := not_lt.2 (by linarith)
      have n4 : ¬ p < 4/5 := not_lt.2 h1
      constructor
      · unfold riskBucket
        rw [if_neg n1, if_neg n2, if_neg n3, if_neg n4]
      · unfold riskInterpretation
        rw [if_neg n1, if_neg n2, if_neg n3, if_neg n4]
    · intro h0 h1
      rcases lt_or_le p (1/10) with ha | ha
      · exact Or.inl ⟨h0, ha⟩
      rcases lt_or_le p (3/10) with hb | hb
      · exact Or.inr (Or.inl ⟨ha, hb⟩)
      rcases lt_or_le p (3/5) with hc | hc
      · exact Or.inr (Or.inr (Or.inl ⟨hb, hc⟩))
      rcases lt_or_le p (4/5) with he | he
      · exact Or.inr (Or.inr (Or.inr (Or.inl ⟨hc, he⟩)))
      · exact Or.inr (Or.inr (Or.inr (Or.inr ⟨he, h1⟩)))
  · intro d missing k noise r h
    unfold predict at h
    cases hv : validateInput d with
    | some e =>
      rw [hv] at h
      exact absurd h (by simp)
    | none =>
      rw [hv] at h
      simp only [PredictResult.ok.injEq] at h
      subst h
      exact ⟨rfl, rfl⟩

/-- Witness for C3: the four boundary probabilities land in the upper
bucket (lower-bound-inclusive semantics). -/
theorem C3_witness :
    riskBucket (1/10) = ("Low", "lightgreen") ∧
    riskBucket (3/10) = ("Moderate", "orange") ∧
    riskBucket (3/5) = ("High", "red") ∧
    riskBucket (4/5) = ("Very High", "darkred") :=
  ⟨(((C3_risk_buckets.1 (1/10)).2.1 (by norm_num) (by norm_num)).1),
   (((C3_risk_buckets.1 (3/10)).2.2.1 (by norm_num) (by norm_num)).1),
   (((C3_risk_buckets.1 (3/5)).2.2.2.1 (by norm_num) (by norm_num)).1),
   (((C3_risk_buckets.1 (4/5)).2.2.2.2.1 (by norm_num) (by norm_num)).1)⟩

/-- **C4**.  The reported confidence is
`max(0.5, max(p, 1-p) - 0.10 * imputed_count)`: for fixed probability it is
monotonically non-increasing in the imputed count and never drops below
0.5, and a successful `predict` reports exactly this quantity for its
probability and imputed count. -/
theorem C4_confidence_formula :
    (∀ p : ℝ, p ∈ Set.Icc (0:ℝ) 1 → ∀ k k' : ℕ,
      confidenceOf p k = max (1/2) (max p (1 - p) - (k : ℝ) * (1/10)) ∧
      (k ≤ k' → confidenceOf p k' ≤ confidenceOf p k) ∧
      1/2 ≤ confidenceOf p k) ∧
    ∀ (d : Feature → ℚ) (missing : List Feature) (k : ℕ) (noise : ℝ) (r : PredOk),
      predict d missing k noise = .ok r →
      r.confidence = confidenceOf r.probability r.imputedCount := by
  constructor
  · intro p _ k k'
    refine ⟨rfl, ?_, le_max_left _ _⟩
    intro hkk
    have hc : (k : ℝ) ≤ (k' : ℝ) := Nat.cast_le.2 hkk
    unfold confidenceOf
    exact max_le_max le_rfl (by linarith)
  · intro d missing k noise r h
    unfold predict at h
    cases hv : validateInput d with
    | some e =>
      rw [hv] at h
      exact absurd h (by simp)
    | none =>
      rw [hv] at h
      simp only [PredictResult.ok.injEq] at h
      subst h
      rfl

/-- Witness for C4 at p = 0.6: raising the imputed count from 1 to 2
cannot raise the confidence, which stays at or above 0.5. -/
theorem C4_witness :
    confidenceOf (3/5) 2 ≤ confidenceOf (3/5) 1 ∧ 1/2 ≤ confidenceOf (3/5) 1 :=
  ⟨(C4_confidence_formula.1 (3/5) ⟨by norm_num, by norm_num⟩ 1 2).2.1 (by norm_num),
   (C4_confidence_formula.1 (3/5) ⟨by norm_num, by norm_num⟩ 1 2).2.2⟩

/-- **C5**.  Format detection on the normalized (diacritic-stripped,
lower-cased) text follows the source's rule cascade: carnet-santé plus a
hematology marker gives QuebecBooklet; failing that, patient-externe plus a
hematology marker gives TraditionalLab; failing that, carnet-santé alone
gives QuebecBooklet; otherwise Unknown.  `detectFormat` is a total pure
function: it has no side effects and never raises. -/
theorem C5_format_detection (t : String) :
    ((strContains t "carnet sante"
        && (strContains t "hemogramme" || strContains t "hematology")) = true →
      detectFormat t = .quebecHealthBooklet) ∧
    ((strContains t "carnet sante"
        && (strContains t "hemogramme" || strContains t "hematology")) = false →
      (strContains t "patient externe"
        && (strContains t "hematologie" || strContains t "hematology")) = true →
      detectFormat t = .traditionalLab) ∧
    ((strContains t "carnet sante"
        && (strContains t "hemogramme" || strContains t "hematology")) = false →
      (strContains t "patient externe"
        && (strContains t "hematologie" || strContains t "hematology")) = false →
      strContains t "carnet sante" = true →
      detectFormat t = .quebecHealthBooklet) ∧
    ((strContains t "carnet sante"
        && (strContains t "hemogramme" || strContains t "hematology")) = false →
      (strContains t "patient externe"
        && (strContains t "hematologie" || strContains t "hematology")) = false →
      strContains t "carnet sante" = false →
      detectFormat t = .unknown) := by
  refine ⟨?_, ?_, ?_, ?_⟩
  · intro h1
    simp [detectFormat, h1]
  · intro h1 h2
    simp [detectFormat, h1, h2]
  · intro h1 h2 h3
    simp [detectFormat, h1, h2, h3]
  · intro h1 h2 h3
    simp [detectFormat, h1, h2, h3]

/-- Witness for C5: one text per detection rule, including the precedence
of the booklet rule and the carnet-santé-alone fallback. -/
theorem C5_witness :
    detectFormat "mon carnet sante : hemogramme complet" = .quebecHealthBooklet ∧
    detectFormat "patient externe rapport hematologie" = .traditionalLab ∧
    detectFormat "mon carnet sante 2024" = .quebecHealthBooklet ∧
    detectFormat "rapport de biochimie" = .unknown :=
  ⟨(C5_format_detection _).1 (by decide),
   (C5_format_detection _).2.1 (by decide) (by decide),
   (C5_format_detection _).2.2.1 (by decide) (by decide) (by decide),
   (C5_format_detection _).2.2.2 (by decide) (by decide) (by decide)⟩

/-- **C6** (amended).  When both percentage readings exist and the
lymphocyte percentage is positive, the derived-metric step of the
pdf-extraction and Quebec-booklet extractors registers the synthetic NLR
reading `round(neut_pct / lymph_pct, 2)` with provenance `Calculated NLR`
and nominal range `1.0-3.0`; when either is absent or the lymphocyte
percentage is not positive, no extractor adds a reading.  (Amendment
forced by `C6_counterexample`: in the universal carnet-santé extractor the
`if nlr:` truthiness gate additionally drops a computed ratio that rounds
to 0.0, so there the reading is only registered when the rounded ratio is
nonzero.) -/
theorem C6_derived_nlr :
    (∀ v : ℚ, (nlrReading v).value = v ∧ (nlrReading v).unit = "ratio" ∧
      (nlrReading v).referenceRange = "1.0-3.0" ∧
      (nlrReading v).originalName = "Calculated NLR") ∧
    (∀ (cbc : CbcMap) (rn rl : Reading),
      alistLookup cbc "NEUT_PCT" = some rn →
      alistLookup cbc "LYMPH_PCT" = some rl →
      rl.value > 0 →
      alistLookup (directAddNLR cbc) "NLR"
          = some (nlrReading (round2 (rn.value / rl.value))) ∧
      (round2 (rn.value / rl.value) ≠ 0 →
        alistLookup (universalAddNLR cbc) "NLR"
          = some (nlrReading (round2 (rn.value / rl.value)))) ∧
      (round2 (rn.value / rl.value) = 0 →
        universalAddNLR cbc = cbc)) ∧
    (∀ (cbc : CbcMap) (rn rl : Reading),
      alistLookup cbc "NEUT_PCT" = some rn →
      alistLookup cbc "LYMPH_PCT" = some rl →
      ¬ rl.value > 0 →
      directAddNLR cbc = cbc ∧ universalAddNLR cbc = cbc) ∧
    (∀ cbc : CbcMap,
      alistLookup cbc "NEUT_PCT" = none ∨ alistLookup cbc "LYMPH_PCT" = none →
      directAddNLR cbc = cbc ∧ universalAddNLR cbc = cbc) := by
  refine ⟨fun v => ⟨rfl, rfl, rfl, rfl⟩, ?_, ?_, ?_⟩
  · intro cbc rn rl hn hl hpos
    refine ⟨?_, ?_, ?_⟩
    · unfold directAddNLR
      rw [hn, hl]
      dsimp only
      rw [if_pos hpos]
      exact alistLookup_mapInsert_self cbc "NLR" _
    · intro h0
      unfold universalAddNLR calculateNLR
      rw [hn, hl]
      dsimp only
      rw [if_pos hpos]
      dsimp only
      rw [if_pos h0]
      exact alistLookup_mapInsert_self cbc "NLR" _
    · intro h0
      unfold universalAddNLR calculateNLR
      rw [hn, hl]
      dsimp only
      rw [if_pos hpos]
      dsimp only
      rw [if_neg (fun hC => hC h0)]
  · intro cbc rn rl hn hl hpos
    constructor
    · unfold directAddNLR
      rw [hn, hl]
      dsimp only
      rw [if_neg hpos]
    · unfold universalAddNLR calculateNLR
      rw [hn, hl]
      dsimp only
      rw [if_neg hpos]
  · intro cbc h
    rcases hn : alistLookup cbc "NEUT_PCT" with _ | rn
    · constructor
      · unfold directAddNLR
        rw [hn]
      · unfold universalAddNLR calculateNLR
        rw [hn]
    · rcases hl : alistLookup cbc "LYMPH_PCT" with _ | rl
      · constructor
        · unfold directAddNLR
          rw [hn, hl]
        · unfold universalAddNLR calculateNLR
          rw [hn, hl]
      · rcases h with h | h
        · exact absurd hn (h ▸ by simp)
        · exact absurd hl (h ▸ by simp)

/-- Witness for C6: 63.31 % neutrophils over 30 % lymphocytes yields the
registered synthetic reading NLR = 2.11 in both extractor families. -/
theorem C6_witness :
    alistLookup (directAddNLR c6WitnessMap) "NLR" = some (nlrReading (211/100)) ∧
    alistLookup (universalAddNLR c6WitnessMap) "NLR" = some (nlrReading (211/100)) := by
  have h := C6_derived_nlr.2.1 c6WitnessMap
    ⟨6331/100, "%", "", "40-70", "NEUTROPHILES %"⟩
    ⟨30, "%", "", "22-44", "LYMPHOCYTES %"⟩ rfl rfl (by norm_num)
  have hr : round2 ((⟨6331/100, "%", "", "40-70", "NEUTROPHILES %"⟩ : Reading).value
      / (⟨30, "%", "", "22-44", "LYMPHOCYTES %"⟩ : Reading).value) = 211/100 := by
    norm_num [round2]
  rw [hr] at h
  exact ⟨h.1, h.2.1 (by norm_num)⟩

/-- Counterexample to C6 as stated: with both percentages present and
lymphocyte percentage 30 > 0, the universal carnet-santé extractor
computes a ratio (0.1 / 30) that rounds to 0.00, fails the `if nlr:`
truthiness test, and registers **no** NLR reading. -/
theorem C6_counterexample :
    (alistLookup c6Map "NEUT_PCT").isSome = true ∧
    (alistLookup c6Map "LYMPH_PCT").map Reading.value = some 30 ∧
    calculateNLR c6Map = some 0 ∧
    alistLookup (universalAddNLR c6Map) "NLR" = none := by
  have hn : alistLookup c6Map "NEUT_PCT"
      = some ⟨1/10, "%", "", "40-70", "NEUTROPHILES %"⟩ := rfl
  have hl : alistLookup c6Map "LYMPH_PCT"
      = some ⟨30, "%", "", "22-44", "LYMPHOCYTES %"⟩ := rfl
  have hcalc : calculateNLR c6Map = some 0 := by
    unfold calculateNLR
    rw [hn, hl]
    dsimp only
    rw [if_pos (by norm_num)]
    norm_num [round2]
  refine ⟨rfl, rfl, hcalc, ?_⟩
  unfold universalAddNLR
  rw [hcalc]
  dsimp only
  rw [if_neg (fun hC => hC rfl)]
  rfl

/-- **C8** (amended).  `UniversalCarnetSanteExtractor.extract_from_pdf`
does satisfy `success ⇔ count > 0` (both fields are computed from the
final `cbc_data`); but the other two extraction entry points violate it:
`QuebecHealthBookletExtractor` sets `success = len(ml_features) > 0` and
`ml_features` always has exactly 7 (NaN-padded) entries, and
`UniversalLabExtractor.extract_from_text` sets `success = True` on every
non-raising run — both can report success with zero readings. -/
theorem C8_success_count_invariant :
    (∀ (t b : CbcMap) (fmt : DocFormat),
      (universalAssemble t b fmt).success = true ↔
        (universalAssemble t b fmt).cbcTestsFound > 0) ∧
    (∀ cbc : CbcMap, (bookletAssemble cbc).mlFeatures.length = 7 ∧
      (bookletAssemble cbc).success = true) ∧
    (∀ (ec : String → CbcMap) (text : String),
      (labExtractFromText ec text).success = true) := by
  refine ⟨?_, ?_, fun ec text => rfl⟩
  · intro t b fmt
    unfold universalAssemble
    simp
  · intro cbc
    constructor
    · unfold bookletAssemble createMlFeatures bookletSevenKeys
      simp
    · unfold bookletAssemble createMlFeatures bookletSevenKeys
      simp

/-- Counterexample to C8 as stated: on the empty document the lab-text
extractor reports `success = True` with zero readings, and the booklet
assembly does the same on an empty biomarker map. -/
theorem C8_counterexample :
    (labExtractFromText (fun _ => []) "").success = true ∧
    (labExtractFromText (fun _ => []) "").cbcTestsFound = 0 ∧
    (bookletAssemble []).success = true ∧
    (bookletAssemble []).cbcTestsFound = 0 := by
  decide

/-- **C9**.  On a traditional-lab document whose hematology / FSC-CBC
window contains the line `GB WBC 5.87 10^9/L 4.50-11.00 RADVS`, extraction
produces exactly one reading, under canonical key WBC, with value 5.87,
unit `10^9/L` and reference range `4.50-11.00` (and the document's
normalized text detects as TraditionalLab). -/
theorem C9_traditional_line_extraction :
    detectFormat docC9Normalized = .traditionalLab ∧
    extractCbcTraditional docC9
      = some [("WBC", ⟨587/100, "10^9/L", "", "4.50-11.00", "WBC"⟩)] := by
  constructor
  · decide
  · have h1 : extractCbcTraditional docC9
        = some [("WBC",
            ⟨decimalVal ['5'] ['8', '7'], "10^9/L", "", "4.50-11.00", "WBC"⟩)] := rfl
    have e1 : natOfDigits ['5'] = 5 := rfl
    have e2 : natOfDigits ['8', '7'] = 87 := rfl
    have h2 : decimalVal ['5'] ['8', '7'] = 587/100 := by
      norm_num [decimalVal, e1, e2]
    rw [h1, h2]

/-! ### Analytic facts about the fallback heuristic -/

/-- The logistic curve is strictly increasing. -/
theorem sigmoid_lt_sigmoid {x y : ℝ} (h : x < y) : sigmoid x < sigmoid y := by
  unfold sigmoid
  have hy : (0:ℝ) < 1 + Real.exp (-y) := by positivity
  have he : Real.exp (-y) < Real.exp (-x) := Real.exp_lt_exp.2 (by linarith)
  exact one_div_lt_one_div_of_lt hy (by linarith)

/-- The logistic curve is monotone. -/
theorem sigmoid_le_sigmoid {x y : ℝ} (h : x ≤ y) : sigmoid x ≤ sigmoid y := by
  rcases eq_or_lt_of_le h with rfl | h'
  · exact le_refl _
  · exact (sigmoid_lt_sigmoid h').le

/-- `exp 6 > 99` (so the sigmoid exceeds the 0.99 clip at argument 6). -/
theorem exp_six_gt : (99:ℝ) < Real.exp 6 := by
  have h1 : (2.7182818283:ℝ) < Real.exp 1 := Real.exp_one_gt_d9
  have h2 : (99:ℝ) < (2.7182818283:ℝ)^6 := by norm_num
  have h3 : ((2.7182818283:ℝ))^6 ≤ (Real.exp 1)^6 :=
    pow_le_pow_left₀ (by norm_num) h1.le 6
  have h4 : (Real.exp 1)^6 = Real.exp 6 := by
    rw [← Real.exp_nat_mul]
    norm_num
  linarith

/-- `exp 4 < 99` (so the sigmoid stays above the 0.01 clip at argument
-4). -/
theorem exp_four_lt : Real.exp 4 < 99 := by
  have h1 : Real.exp 1 < 2.7182818286 := Real.exp_one_lt_d9
  have h2 : (Real.exp 1)^4 ≤ (2.7182818286:ℝ)^4 :=
    pow_le_pow_left₀ (Real.exp_pos 1).le h1.le 4
  have h3 : ((2.7182818286:ℝ))^4 < 99 := by norm_num
  have h4 : (Real.exp 1)^4 = Real.exp 4 := by
    rw [← Real.exp_nat_mul]
    norm_num
  linarith

/-- Past argument 6 the sigmoid exceeds the upper clip bound 0.99. -/
theorem sigmoid_gt_saturation {x : ℝ} (h : 6 ≤ x) : 99/100 < sigmoid x := by
  have h6 : (99/100:ℝ) < sigmoid 6 := by
    unfold sigmoid
    have hp : (0:ℝ) < 1 + Real.exp (-6) := by positivity
    rw [lt_div_iff₀ hp]
    have hprod : Real.exp (-6) * Real.exp 6 = 1 := by
      rw [← Real.exp_add]
      norm_num
    have ht : (0:ℝ) < Real.exp (-6) := Real.exp_pos _
    have key : Real.exp (-6) * 99 < 1 := by
      calc Real.exp (-6) * 99 < Real.exp (-6) * Real.exp 6 :=
            mul_lt_mul_of_pos_left exp_six_gt ht
        _ = 1 := hprod
    linarith
  exact lt_of_lt_of_le h6 (sigmoid_le_sigmoid h)

/-- Above argument -4 the sigmoid stays above the lower clip bound 0.01. -/
theorem sigmoid_gt_floor {x : ℝ} (h : (-4:ℝ) ≤ x) : 1/100 < sigmoid x := by
  have h4 : (1/100:ℝ) < sigmoid (-4) := by
    unfold sigmoid
    have hp : (0:ℝ) < 1 + Real.exp (-(-4:ℝ)) := by positivity
    rw [lt_div_iff₀ hp]
    have he : Real.exp (-(-4:ℝ)) = Real.exp 4 := by norm_num
    rw [he]
    linarith [exp_four_lt]
  exact lt_of_lt_of_le h4 (sigmoid_le_sigmoid h)

/-- Each normalized range deviation is non-negative (the clinical bounds
are positive). -/
theorem rangeDeviation_nonneg {lo hi v : ℚ} (hlo : 0 < lo) (hhi : 0 < hi) :
    0 ≤ rangeDeviation lo hi v := by
  unfold rangeDeviation
  split_ifs with h1 h2
  · exact div_nonneg (by linarith) hlo.le
  · exact div_nonneg (by linarith) hhi.le
  · exact le_refl 0

/-- The abnormality score is a sum of non-negative contributions. -/
theorem abnormalityScore_nonneg (d : Feature → ℚ) : 0 ≤ abnormalityScore d := by
  have hsum : 0 ≤ deviationSum d := by
    unfold deviationSum
    apply List.sum_nonneg
    intro x hx
    simp only [List.mem_map] at hx
    obtain ⟨f, _, rfl⟩ := hx
    exact rangeDeviation_nonneg (by cases f <;> norm_num [normalRanges])
      (by cases f <;> norm_num [normalRanges])
  unfold abnormalityScore
  have b1 : (0:ℚ) ≤ if d .NLR > 5 then 2 else if d .NLR > 7/2 then 1 else 0 := by
    split_ifs <;> norm_num
  have b2 : (0:ℚ) ≤ if d .HGB < 100 then 3/2 else if d .HGB < 120 then 1/2 else 0 := by
    split_ifs <;> norm_num
  have b3 : (0:ℚ) ≤ if d .RDW > 16 then 1 else if d .RDW > 15 then 1/2 else 0 := by
    split_ifs <;> norm_num
  have b4 : (0:ℚ) ≤ if d .MONO > 1 then 4/5 else 0 := by
    split_ifs <;> norm_num
  linarith

/-- With the jitter at 0, the clipped fallback probability is
`min (sigmoid (2 (score - 2))) 0.99`: the lower clip never binds because
the score is non-negative. -/
theorem simulatePrediction_zero_noise (d : Feature → ℚ) :
    simulatePrediction d 0
      = min (sigmoid (2 * ((abnormalityScore d : ℝ) - 2))) (99/100) := by
  unfold simulatePrediction clip
  have hs : (0:ℝ) ≤ ((abnormalityScore d : ℝ)) := by
    exact_mod_cast abnormalityScore_nonneg d
  have hx : (-4:ℝ) ≤ 2 * ((abnormalityScore d : ℝ) - 2) := by linarith
  rw [add_zero, max_eq_left (sigmoid_gt_floor hx).le]

/-- Any abnormality score of at least 5 saturates the 0.99 clip. -/
theorem simulatePrediction_saturated {d : Feature → ℚ}
    (h : 5 ≤ abnormalityScore d) : simulatePrediction d 0 = 99/100 := by
  rw [simulatePrediction_zero_noise]
  have h5 : (5:ℝ) ≤ (abnormalityScore d : ℝ) := by exact_mod_cast h
  have hx : (6:ℝ) ≤ 2 * ((abnormalityScore d : ℝ) - 2) := by linarith
  exact min_eq_right (sigmoid_gt_saturation hx).le

/-- **C7** (amended).  Holding all other features fixed, raising NLR from
any value in [0.5, 3.5] to any value above 5.0 strictly increases the
abnormality score; the noise-free computed probability never decreases,
and it strictly increases whenever the higher probability lies below the
0.99 clipping ceiling.  (Amendment forced by `C7_counterexample`: once the
sigmoid saturates the clip, both probabilities equal 0.99 and the increase
is not strict; the jitter term is likewise set to its mean 0 to make the
comparison deterministic.) -/
theorem C7_fallback_nlr_monotonicity (d : Feature → ℚ) (v1 v2 : ℚ)
    (hlo : 1/2 ≤ v1) (hhi : v1 ≤ 7/2) (hv2 : 5 < v2) :
    abnormalityScore (setNLR d v1) < abnormalityScore (setNLR d v2) ∧
    simulatePrediction (setNLR d v1) 0 ≤ simulatePrediction (setNLR d v2) 0 ∧
    (simulatePrediction (setNLR d v2) 0 < 99/100 →
      simulatePrediction (setNLR d v1) 0 < simulatePrediction (setNLR d v2) 0) := by
  have hscore : abnormalityScore (setNLR d v1) < abnormalityScore (setNLR d v2) := by
    have hdiff : abnormalityScore (setNLR d v2) - abnormalityScore (setNLR d v1)
        = (rangeDeviation 1 4 v2
            + (if v2 > 5 then (2:ℚ) else if v2 > 7/2 then 1 else 0))
          - (rangeDeviation 1 4 v1
            + (if v1 > 5 then (2:ℚ) else if v1 > 7/2 then 1 else 0)) := by
      simp only [abnormalityScore, deviationSum, canonicalFeatures, List.map_cons,
        List.map_nil, List.sum_cons, List.sum_nil, setNLR, normalRanges]
      ring
    have e2 : rangeDeviation 1 4 v2 = (v2 - 4) / 4 := by
      unfold rangeDeviation
      rw [if_neg (by linarith), if_pos (by linarith)]
    have e2b : (if v2 > 5 then (2:ℚ) else if v2 > 7/2 then 1 else 0) = 2 :=
      if_pos hv2
    have e1b : (if v1 > 5 then (2:ℚ) else if v1 > 7/2 then 1 else 0) = 0 := by
      rw [if_neg (by linarith), if_neg (by linarith)]
    have e1 : rangeDeviation 1 4 v1 ≤ 1/2 := by
      unfold rangeDeviation
      split_ifs with ha hb
      · linarith
      · linarith
      · norm_num
    rw [e2, e2b, e1b] at hdiff
    linarith
  have hσ : sigmoid (2 * ((abnormalityScore (setNLR d v1) : ℝ) - 2))
      < sigmoid (2 * ((abnormalityScore (setNLR d v2) : ℝ) - 2)) := by
    have hcast : ((abnormalityScore (setNLR d v1) : ℝ))
        < ((abnormalityScore (setNLR d v2) : ℝ)) := by exact_mod_cast hscore
    exact sigmoid_lt_sigmoid (by linarith)
  refine ⟨hscore, ?_, ?_⟩
  · rw [simulatePrediction_zero_noise, simulatePrediction_zero_noise]
    exact min_le_min hσ.le (le_refl _)
  · intro hlt
    rw [simulatePrediction_zero_noise] at hlt
    rw [simulatePrediction_zero_noise, simulatePrediction_zero_noise]
    have hσ2 : sigmoid (2 * ((abnormalityScore (setNLR d v2) : ℝ) - 2)) < 99/100 := by
      by_contra hc
      push_neg at hc
      rw [min_eq_right hc] at hlt
      exact lt_irrefl _ hlt
    rw [min_eq_left hσ2.le, min_eq_left (hσ.trans hσ2).le]
    exact hσ

/-- Witness for C7: population-mean features with NLR raised from 3.0 to
6.0. -/
theorem C7_witness :
    abnormalityScore (setNLR imputationValues 3)
      < abnormalityScore (setNLR imputationValues 6) ∧
    simulatePrediction (setNLR imputationValues 3) 0
      ≤ simulatePrediction (setNLR imputationValues 6) 0 ∧
    (simulatePrediction (setNLR imputationValues 6) 0 < 99/100 →
      simulatePrediction (setNLR imputationValues 3) 0
        < simulatePrediction (setNLR imputationValues 6) 0) :=
  C7_fallback_nlr_monotonicity imputationValues 3 6 (by norm_num) (by norm_num)
    (by norm_num)

/-- Counterexample to C7 as stated: on `c7Base` (a feature vector inside
every validation range), raising NLR from 3.5 to 6.0 leaves the computed
noise-free probability unchanged — both sides saturate the 0.99 clip, so
the probability does not strictly increase. -/
theorem C7_counterexample :
    setNLR c7Base (7/2) Feature.NLR ≤ 7/2 ∧
    (5:ℚ) < setNLR c7Base 6 Feature.NLR ∧
    simulatePrediction (setNLR c7Base (7/2)) 0
      = simulatePrediction (setNLR c7Base 6) 0 := by
  have hs1 : (5:ℚ) ≤ abnormalityScore (setNLR c7Base (7/2)) := by
    norm_num [abnormalityScore, deviationSum, canonicalFeatures, setNLR, c7Base,
      normalRanges, rangeDeviation]
  have hs2 : (5:ℚ) ≤ abnormalityScore (setNLR c7Base 6) := by
    norm_num [abnormalityScore, deviationSum, canonicalFeatures, setNLR, c7Base,
      normalRanges, rangeDeviation]
  refine ⟨by norm_num [setNLR], by norm_num [setNLR], ?_⟩
  rw [simulatePrediction_saturated hs1, simulatePrediction_saturated hs2]

end Rizome
